import Mathlib

/-!
Verification development for the touchctl gesture daemon.

Shallow embedding conventions:
* Rust `f32` values are modelled as exact rationals (`ℚ`); the one
  operation ℚ cannot express, `f32::sqrt`, is taken as an abstract
  function parameter, so every theorem holds for each interpretation
  of it (in particular the true square root).
* Rust `i32` / `u64` / `u128` / `usize` are modelled as `ℤ` or `ℕ`.
  Integer arithmetic in the modelled code stays far below the i32
  bounds for device-supplied values, and a Rust debug build treats
  overflow as a panic rather than defined wraparound, so machine
  arithmetic is modelled exactly; the two places where a cast's
  wrapping / saturating behaviour is observable (`cur_slot as usize`,
  `f32 as i32`) are modelled bit-faithfully below.
* Fallible operations (slot-array indexing that can panic) return
  `Option`; `none` models the panic.
-/

namespace Touchctl

/-- Rust `i32 as usize` on a 64-bit target: sign-extending cast, i.e. the
value modulo 2^64 (so a negative index becomes a huge one). -/
def i32ToUsize (i : ℤ) : ℕ := (i % (2 : ℤ) ^ 64).toNat

/-- Rust `i32::clamp(lo, hi)` (for `lo ≤ hi`). -/
def iclamp (x lo hi : ℤ) : ℤ := max lo (min x hi)

/-- Rust `f32::clamp(lo, hi)` on the rational model (for `lo ≤ hi`). -/
def qclamp (x lo hi : ℚ) : ℚ := max lo (min x hi)

/-- Truncation toward zero, the rounding used by Rust `as` float-to-int casts. -/
def towardZero (q : ℚ) : ℤ := if 0 ≤ q then ⌊q⌋ else ⌈q⌉

/-- Rust `f32 as i32`: truncation toward zero, saturating at the i32 bounds. -/
def i32cast (q : ℚ) : ℤ := max (-(2 ^ 31)) (min ((2 : ℤ) ^ 31 - 1) (towardZero q))

/-! ### src/tracker.rs : per-slot touch tracking and frame snapshots -/

/-- `SlotState` from src/tracker.rs.  Field-for-field translation; the Rust
`#[derive(Default)]` default (all fields zero / false) is `SlotState.dflt`. -/
structure SlotState where
  tracking_id : ℤ
  x_norm : ℚ
  y_norm : ℚ
  t_first_ms : ℕ
  t_last_ms : ℕ
  moved_norm : ℚ
  last_x_norm : ℚ
  last_y_norm : ℚ
  seen_x : Bool
  seen_y : Bool
  active : Bool
deriving Repr, DecidableEq

/-- The Rust `Default` for `SlotState`: every numeric field 0, flags false. -/
def SlotState.dflt : SlotState :=
  ⟨0, 0, 0, 0, 0, 0, 0, 0, false, false, false⟩

/-- `SlotSnapshot` from src/tracker.rs. -/
structure SlotSnapshot where
  tracking_id : ℤ
  x_norm : ℚ
  y_norm : ℚ
  moved_norm : ℚ
  age_ms : ℕ
deriving Repr, DecidableEq

/-- `FrameSummary` from src/tracker.rs. -/
structure FrameSummary where
  timestamp_ms : ℕ
  active_count : ℕ
  centroid : ℚ × ℚ
  span : ℚ
  slots : List SlotSnapshot
deriving Repr, DecidableEq

/-- `Tracker` from src/tracker.rs.  The `start_instant` clock is factored
out: every event handler takes the current `now_ms` value as an argument. -/
structure Tracker where
  slots : List SlotState
  cur_slot : ℤ
  x_min : ℤ
  x_max : ℤ
  y_min : ℤ
  y_max : ℤ
  active_count : ℕ
  centroid : ℚ × ℚ
  span : ℚ
deriving Repr, DecidableEq

/-- `Tracker::new`: ten default slots, ranges 0..4096. -/
def Tracker.new : Tracker :=
  { slots := List.replicate 10 SlotState.dflt
    cur_slot := 0
    x_min := 0, x_max := 4096, y_min := 0, y_max := 4096
    active_count := 0
    centroid := (0, 0)
    span := 0 }

/-- `Tracker::set_norm_ranges`: forces `max ≥ min + 1` on each axis. -/
def Tracker.set_norm_ranges (t : Tracker) (xmin xmax ymin ymax : ℤ) : Tracker :=
  { t with
    x_min := xmin, x_max := max xmax (xmin + 1)
    y_min := ymin, y_max := max ymax (ymin + 1) }

/-- `Tracker::on_slot`: `cur_slot = slot.clamp(0, len - 1)`. -/
def Tracker.on_slot (t : Tracker) (slot : ℤ) : Tracker :=
  { t with cur_slot := iclamp slot 0 ((t.slots.length : ℤ) - 1) }

/-- `Tracker::on_tracking_id`.  `none` models the panic of the Rust slot
indexing `self.slots[self.cur_slot as usize]` when the index is out of
bounds.  A negative id releases the slot; a non-negative id starts a new
touch with movement state reset. -/
def Tracker.on_tracking_id (t : Tracker) (now : ℕ) (tid : ℤ) : Option Tracker :=
  let idx := i32ToUsize t.cur_slot
  match t.slots[idx]? with
  | none => none
  | some s =>
    let s1 : SlotState :=
      if tid < 0 then
        { s with tracking_id := -1, active := false, t_last_ms := now }
      else
        { tracking_id := tid
          x_norm := s.x_norm, y_norm := s.y_norm
          t_first_ms := now, t_last_ms := now
          moved_norm := 0
          last_x_norm := s.x_norm, last_y_norm := s.y_norm
          seen_x := false, seen_y := false
          active := true }
    some { t with slots := t.slots.set idx s1 }

/-- `Tracker::on_pos_x`: normalize, accumulate `|Δx|` into `moved_norm`
once both axis baselines are established, else record the baseline. -/
def Tracker.on_pos_x (t : Tracker) (now : ℕ) (raw : ℤ) : Option Tracker :=
  let nx : ℚ := qclamp (((raw - t.x_min : ℤ) : ℚ) / ((t.x_max - t.x_min : ℤ) : ℚ)) 0 1
  let idx := i32ToUsize t.cur_slot
  match t.slots[idx]? with
  | none => none
  | some s =>
    let s1 : SlotState :=
      if s.seen_x && s.seen_y then
        { s with moved_norm := s.moved_norm + |nx - s.last_x_norm|
                 x_norm := nx, t_last_ms := now }
      else
        { s with last_x_norm := nx, seen_x := true
                 x_norm := nx, t_last_ms := now }
    some { t with slots := t.slots.set idx s1 }

/-- `Tracker::on_pos_y`: mirror image of `on_pos_x`. -/
def Tracker.on_pos_y (t : Tracker) (now : ℕ) (raw : ℤ) : Option Tracker :=
  let ny : ℚ := qclamp (((raw - t.y_min : ℤ) : ℚ) / ((t.y_max - t.y_min : ℤ) : ℚ)) 0 1
  let idx := i32ToUsize t.cur_slot
  match t.slots[idx]? with
  | none => none
  | some s =>
    let s1 : SlotState :=
      if s.seen_x && s.seen_y then
        { s with moved_norm := s.moved_norm + |ny - s.last_y_norm|
                 y_norm := ny, t_last_ms := now }
      else
        { s with last_y_norm := ny, seen_y := true
                 y_norm := ny, t_last_ms := now }
    some { t with slots := t.slots.set idx s1 }

/-- The active-slot filter of `Tracker::on_syn_report`:
slots with `active && tracking_id >= 0`, in slot order. -/
def Tracker.activeSlots (t : Tracker) : List SlotState :=
  t.slots.filter (fun s => s.active && decide (0 ≤ s.tracking_id))

/-- `Tracker::on_syn_report`: emit the frame summary and update the
tracker aggregates.  `sqrt` abstracts `f32::sqrt`. -/
def Tracker.on_syn_report (sqrt : ℚ → ℚ) (t : Tracker) (now : ℕ) :
    FrameSummary × Tracker :=
  let act := t.activeSlots
  let n := act.length
  let centroid : ℚ × ℚ :=
    if 0 < n then
      ((act.map (fun s => s.x_norm)).sum / (n : ℚ),
       (act.map (fun s => s.y_norm)).sum / (n : ℚ))
    else (1 / 2, 1 / 2)
  let span : ℚ :=
    if 0 < n then
      (act.map (fun s =>
        sqrt ((s.x_norm - centroid.1) * (s.x_norm - centroid.1) +
              (s.y_norm - centroid.2) * (s.y_norm - centroid.2)))).sum / (n : ℚ)
    else 0
  let snaps : List SlotSnapshot :=
    act.map (fun s =>
      ⟨s.tracking_id, s.x_norm, s.y_norm, s.moved_norm, now - s.t_first_ms⟩)
  (⟨now, n, centroid, span, snaps⟩,
   { t with active_count := n, centroid := centroid, span := span })

/-- The tracker-facing event alphabet of the pipeline loop
(src/ipc/pipeline.rs lines 64-83) plus `set_norm_ranges`. -/
inductive Ev where
  | slot (i : ℤ)
  | tid (now : ℕ) (id : ℤ)
  | posX (now : ℕ) (raw : ℤ)
  | posY (now : ℕ) (raw : ℤ)
  | syn (now : ℕ)
  | norm (xmin xmax ymin ymax : ℤ)
deriving Repr, DecidableEq

/-- One tracker step; `none` models a slot-indexing panic. -/
def Tracker.step (sqrt : ℚ → ℚ) (t : Tracker) : Ev → Option Tracker
  | Ev.slot i => some (t.on_slot i)
  | Ev.tid now id => t.on_tracking_id now id
  | Ev.posX now raw => t.on_pos_x now raw
  | Ev.posY now raw => t.on_pos_y now raw
  | Ev.syn now => some (t.on_syn_report sqrt now).2
  | Ev.norm a b c d => some (t.set_norm_ranges a b c d)

/-- Run a sequence of tracker events, propagating a panic. -/
def Tracker.run (sqrt : ℚ → ℚ) (t : Tracker) : List Ev → Option Tracker
  | [] => some t
  | e :: es =>
    match t.step sqrt e with
    | none => none
    | some t1 => t1.run sqrt es

/-! ### src/config.rs : thresholds, profiles and validation -/

/-- `Thresholds` from src/config.rs. -/
structure Thresholds where
  tap_ms : ℕ
  hold_ms : ℕ
  move_tol : ℚ
  swipe_min_dist : ℚ
  swipe_max_ms : ℕ
  pinch_sensitivity : ℚ
  pinch_step : ℚ
  smooth_ema : ℚ
deriving Repr, DecidableEq

/-- `Meta` from src/config.rs. -/
structure Meta where
  name : Option String
  allow_commands : Bool
deriving Repr, DecidableEq

/-- `Profile` from src/config.rs; the bindings map is modelled as an
association list (iteration order only affects which error message is
reported first, not acceptance). -/
structure Profile where
  meta : Meta
  thresholds : Thresholds
  bindings : List (String × String)
deriving Repr, DecidableEq

/-- One iteration of the binding-validation loop in `validate_profile`. -/
def validBinding (allow_commands : Bool) (kv : String × String) : Except String Unit :=
  if kv.1.trim = "" then Except.error "empty binding key"
  else if kv.2.trim = "" then Except.error "binding has empty action"
  else if !(kv.2.startsWith "mouse:" || kv.2.startsWith "scroll:" ||
            kv.2.startsWith "key:" || kv.2 = "toggle" || kv.2.startsWith "cmd:") then
    Except.error "binding has invalid action"
  else if kv.2.startsWith "cmd:" && !allow_commands then
    Except.error "binding uses cmd: but allow_commands=false"
  else Except.ok ()

/-- The binding loop of `validate_profile`, first error wins. -/
def validateBindings (allow_commands : Bool) : List (String × String) → Except String Unit
  | [] => Except.ok ()
  | kv :: rest =>
    match validBinding allow_commands kv with
    | Except.error e => Except.error e
    | Except.ok _ => validateBindings allow_commands rest

/-- `validate_profile` from src/config.rs.  Note the Rust range test
`(0.0..1.0).contains(&move_tol)` is the half-open interval
`0 ≤ move_tol < 1`, translated literally here. -/
def validate_profile (p : Profile) : Except String Unit :=
  if p.thresholds.tap_ms = 0 ∨ p.thresholds.hold_ms = 0 then
    Except.error "thresholds must be positive durations"
  else if ¬(0 ≤ p.thresholds.move_tol ∧ p.thresholds.move_tol < 1) then
    Except.error "thresholds.move_tol must be in (0,1) normalized units"
  else validateBindings p.meta.allow_commands p.bindings

/-! ### src/gestures.rs : the gesture state machine -/

/-- `Gesture` from src/gestures.rs. -/
inductive Gesture where
  | TwoFingerTap
  | TwoFingerSwipeUp
  | TwoFingerSwipeDown
  | TwoFingerSwipeLeft
  | TwoFingerSwipeRight
  | PinchScaleIn
  | PinchScaleOut
  | ThreeFingerTap
deriving Repr, DecidableEq

/-- `TwoFingerState` from src/gestures.rs. -/
structure TwoFingerState where
  start_time_ms : ℕ
  start_centroid : ℚ × ℚ
  start_span : ℚ
  armed : Bool
  classified : Bool
deriving Repr, DecidableEq

/-- The Rust `Default` for `TwoFingerState`. -/
def TwoFingerState.dflt : TwoFingerState := ⟨0, (0, 0), 0, false, false⟩

/-- `GestureDetector` from src/gestures.rs. -/
structure GestureDetector where
  th : Thresholds
  two : TwoFingerState
  three_start_ms : Option ℕ
  last_two_frame : Option FrameSummary
deriving Repr, DecidableEq

/-- `GestureDetector::new`. -/
def GestureDetector.new (th : Thresholds) : GestureDetector :=
  ⟨th, TwoFingerState.dflt, none, none⟩

/-- The tap condition evaluated against the latched two-finger frame
(src/gestures.rs lines 105-108): exactly two snapshots, each within
`tap_ms` of its touchdown and within `move_tol` of accumulated motion. -/
def tapOk (th : Thresholds) (lf : FrameSummary) : Bool :=
  lf.slots.length == 2 &&
    lf.slots.all (fun s =>
      decide (s.age_ms ≤ th.tap_ms) && decide (s.moved_norm ≤ th.move_tol))

/-- The two-finger portion of `GestureDetector::update` (src/gestures.rs
lines 50-120).  A `some` gesture in the result is an early `return` in the
Rust code, short-circuiting the three-finger block below. -/
def GestureDetector.twoPhase (d : GestureDetector) (frame : FrameSummary) :
    GestureDetector × Option Gesture :=
  if frame.active_count = 2 then
    let two1 : TwoFingerState :=
      if d.two.armed then d.two
      else
        { start_time_ms := frame.timestamp_ms
          start_centroid := frame.centroid
          start_span := frame.span
          armed := true, classified := false }
    let d1 : GestureDetector := { d with two := two1, last_two_frame := some frame }
    if two1.classified then (d1, none)
    else
      let dt := frame.timestamp_ms - two1.start_time_ms
      let dx := frame.centroid.1 - two1.start_centroid.1
      let dy := frame.centroid.2 - two1.start_centroid.2
      if dt ≤ d.th.swipe_max_ms ∧ |dy| ≤ |dx| ∧ d.th.swipe_min_dist ≤ |dx| then
        ({ d1 with two := { two1 with classified := true } },
         some (if 0 < dx then Gesture.TwoFingerSwipeRight else Gesture.TwoFingerSwipeLeft))
      else if dt ≤ d.th.swipe_max_ms ∧ |dx| < |dy| ∧ d.th.swipe_min_dist ≤ |dy| then
        ({ d1 with two := { two1 with classified := true } },
         some (if 0 < dy then Gesture.TwoFingerSwipeDown else Gesture.TwoFingerSwipeUp))
      else if d.th.pinch_step ≤ |frame.span - two1.start_span| then
        ({ d1 with two := { two1 with classified := true } },
         some (if frame.span - two1.start_span < 0 then Gesture.PinchScaleIn
               else Gesture.PinchScaleOut))
      else (d1, none)
  else
    if d.two.armed then
      ({ d with two := TwoFingerState.dflt, last_two_frame := none },
       if d.two.classified then none
       else
         match d.last_two_frame with
         | some lf => if tapOk d.th lf then some Gesture.TwoFingerTap else none
         | none => none)
    else (d, none)

/-- The three-finger block of `GestureDetector::update` (src/gestures.rs
lines 123-135). -/
def GestureDetector.threeStep (d : GestureDetector) (frame : FrameSummary) :
    GestureDetector × Option Gesture :=
  if frame.active_count = 3 then
    (if d.three_start_ms = none then
       { d with three_start_ms := some frame.timestamp_ms }
     else d, none)
  else if frame.active_count = 0 then
    match d.three_start_ms with
    | some t0 =>
      ({ d with three_start_ms := none },
       if frame.timestamp_ms - t0 ≤ d.th.tap_ms then some Gesture.ThreeFingerTap
       else none)
    | none => (d, none)
  else (d, none)

/-- `GestureDetector::update`: the two-finger phase, then (unless it
returned early) the three-finger block. -/
def GestureDetector.update (d : GestureDetector) (frame : FrameSummary) :
    GestureDetector × Option Gesture :=
  match d.twoPhase frame with
  | (d1, some g) => (d1, some g)
  | (d1, none) => d1.threeStep frame

/-! ### src/ipc/pipeline.rs : scroll integrator and grab arbiter -/

/-- `STEP_NORM` from src/ipc/pipeline.rs line 97. -/
def STEP_NORM : ℚ := 1 / 100

/-- `GAIN` from src/ipc/pipeline.rs line 98. -/
def GAIN : ℚ := 1

/-- Result of one scroll-integrator pass: the new accumulator and the
argument passed to `scroll_vertical` (already sign-inverted), if any. -/
structure ScrollOut where
  acc : ℚ
  emit : Option ℤ
deriving Repr, DecidableEq

/-- The continuous-scroll block of `run_pipeline` (src/ipc/pipeline.rs
lines 89-112), as a function of the previous frame, the current frame and
the accumulator.  `i32cast` is the Rust `as i32` truncating cast. -/
def scrollStep (th : Thresholds) (prev : Option FrameSummary)
    (frame : FrameSummary) (acc : ℚ) : ScrollOut :=
  match prev with
  | none => ⟨acc, none⟩
  | some p =>
    if frame.active_count = 2 then
      let dspan := |frame.span - p.span|
      let pinch_gate := 6 / 10 * th.pinch_step
      if dspan < pinch_gate then
        let acc1 := acc + (frame.centroid.2 - p.centroid.2)
        let steps := i32cast (acc1 / STEP_NORM * GAIN)
        if 1 ≤ |steps| then
          ⟨acc1 - (steps : ℚ) * STEP_NORM / GAIN, some (-steps)⟩
        else ⟨acc1, none⟩
      else ⟨acc, none⟩
    else ⟨0, none⟩

/-- The step count as the specification words it: a floor. -/
def specSteps (acc : ℚ) : ℤ := ⌊acc / STEP_NORM⌋

/-- `want_grab_next` over the frames of one tick: `None` at tick start,
overwritten with `Some (active_count >= 2)` on every frame
(src/ipc/pipeline.rs lines 57 and 86). -/
def want_grab_fold (frames : List FrameSummary) : Option Bool :=
  frames.foldl (fun _ f => some (decide (2 ≤ f.active_count))) none

/-- The grab/ungrab block applied once after the event pass
(src/ipc/pipeline.rs lines 129-143).  Returns the new `grabbed` flag and
the number of grab transitions performed. -/
def applyGrab (grabbed : Bool) (want : Option Bool) : Bool × ℕ :=
  match want with
  | none => (grabbed, 0)
  | some w =>
    if w && !grabbed then (true, 1)
    else if !w && grabbed then (false, 1)
    else (grabbed, 0)

/-- One tick of grab arbitration: compute `want_grab_next` from the frames
emitted during the tick (the transition is a function of the completed
event pass, mirroring its deferral to after the device loop), then apply
at most one transition. -/
def tickGrab (grabbed : Bool) (frames : List FrameSummary) : Bool × ℕ :=
  applyGrab grabbed (want_grab_fold frames)

/-! ### src/actions.rs and src/ipc/dispatch.rs : the sink and dispatcher -/

/-- Observable outputs of the virtual-input sink. -/
inductive Effect where
  | scrollV (steps : ℤ)
  | clickBtn (which : String)
  | chord (keys : List String)
deriving Repr, DecidableEq

/-- `UinputSink` from src/actions.rs, keeping the `enabled` flag; the
underlying uinput device is abstracted into the emitted `Effect` list
(modelling the device-present case; the no-op sink emits nothing, which
no claim depends on). -/
structure UinputSink where
  enabled : Bool
deriving Repr, DecidableEq

/-- `UinputSink::set_enabled`. -/
def UinputSink.set_enabled (s : UinputSink) (en : Bool) : UinputSink :=
  { s with enabled := en }

/-- `UinputSink::scroll_vertical`: no-op when disabled. -/
def UinputSink.scroll_vertical (s : UinputSink) (steps : ℤ) :
    Except String (UinputSink × List Effect) :=
  if !s.enabled then Except.ok (s, []) else Except.ok (s, [Effect.scrollV steps])

/-- `UinputSink::click_mouse`: unknown buttons are an error. -/
def UinputSink.click_mouse (s : UinputSink) (which : String) :
    Except String (UinputSink × List Effect) :=
  if !s.enabled then Except.ok (s, [])
  else
    if which.toLower = "left" ∨ which.toLower = "right" ∨ which.toLower = "middle" then
      Except.ok (s, [Effect.clickBtn which.toLower])
    else Except.error ("unknown mouse button: " ++ which)

/-- `map_key` from src/actions.rs: the recognized chord tokens. -/
def map_key (tok : String) : Except String String :=
  if tok = "CTRL" ∨ tok = "CONTROL" then Except.ok "LeftControl"
  else if tok = "ALT" then Except.ok "LeftAlt"
  else if tok = "SHIFT" then Except.ok "LeftShift"
  else if tok = "SUPER" ∨ tok = "META" ∨ tok = "WIN" then Except.ok "LeftMeta"
  else if tok = "TAB" then Except.ok "Tab"
  else if tok = "MINUS" ∨ tok = "-" then Except.ok "Minus"
  else if tok = "EQUAL" ∨ tok = "=" then Except.ok "Equal"
  else Except.error ("unsupported key token: " ++ tok)

/-- `UinputSink::key_chord`: split on `+`, map every token, press then
release (collapsed here into one chord effect). -/
def UinputSink.key_chord (s : UinputSink) (chord : String) :
    Except String (UinputSink × List Effect) :=
  if !s.enabled then Except.ok (s, [])
  else
    match ((chord.splitOn "+").map (fun p => p.trim.toUpper)).mapM map_key with
    | Except.error e => Except.error e
    | Except.ok keys => Except.ok (s, [Effect.chord keys])

/-- The gesture-to-binding-key table of `dispatch_gesture`
(src/ipc/dispatch.rs lines 14-23). -/
def bindingKey : Gesture → String
  | Gesture.TwoFingerTap => "two_finger.tap"
  | Gesture.TwoFingerSwipeUp => "two_finger.swipe_up"
  | Gesture.TwoFingerSwipeDown => "two_finger.swipe_down"
  | Gesture.TwoFingerSwipeLeft => "two_finger.swipe_left"
  | Gesture.TwoFingerSwipeRight => "two_finger.swipe_right"
  | Gesture.PinchScaleIn => "pinch.scale_in"
  | Gesture.PinchScaleOut => "pinch.scale_out"
  | Gesture.ThreeFingerTap => "three_finger.tap"

/-- `bindings.get(key).cloned().unwrap_or_default()`. -/
def lookupBinding (bindings : List (String × String)) (k : String) : String :=
  match bindings.lookup k with
  | some v => v
  | none => ""

/-- Rust `str::parse::<i32>()` with `unwrap_or(1)`: optional sign, digits,
i32 range; anything else falls back to 1. -/
def parseI32 (s : String) : ℤ :=
  let p : Option ℤ :=
    if s.startsWith "-" then ((s.drop 1).toNat?).map (fun n => -(n : ℤ))
    else if s.startsWith "+" then ((s.drop 1).toNat?).map (fun n => (n : ℤ))
    else (s.toNat?).map (fun n => (n : ℤ))
  match p with
  | some n => if -(2 ^ 31) ≤ n ∧ n ≤ 2 ^ 31 - 1 then n else 1
  | none => 1

/-- `dispatch_gesture` from src/ipc/dispatch.rs: look up the action for
the gesture and drive the sink.  The `toggle` arm is the literal Rust
code: `if action == "toggle" { return Ok(()); }` — it returns without
touching the sink. -/
def dispatch_gesture (g : Gesture) (bindings : List (String × String))
    (sink : UinputSink) : Except String (UinputSink × List Effect) :=
  let action := lookupBinding bindings (bindingKey g)
  if action = "" then Except.ok (sink, [])
  else if action = "toggle" then Except.ok (sink, [])
  else if action.startsWith "mouse:" then
    sink.click_mouse ((action.drop 6).trim)
  else if action.startsWith "scroll:" then
    let parts := (action.drop 7).splitOn "@"
    let axis := (parts.getD 0 "vertical").trim
    let steps := parseI32 (parts.getD 1 "+1")
    if axis.toLower = "vertical" then sink.scroll_vertical steps
    else Except.ok (sink, [])
  else if action.startsWith "key:" then
    sink.key_chord ((action.drop 4).trim)
  else if action.startsWith "cmd:" then Except.ok (sink, [])
  else Except.error ("unknown action mapping for " ++ bindingKey g ++ " -> " ++ action)

/-! ## Theorems -/

/-- C1: the spec says a `"toggle"` binding flips the daemon `enabled`
flag, but `dispatch_gesture` handles `"toggle"` with a bare
`return Ok(())`: for every sink state, dispatching a gesture bound to
`"toggle"` returns the sink unchanged (and `UinputSink::set_enabled` has
no caller anywhere in the crate).  The enabled flag after dispatch equals
its value before, never its negation. -/
theorem toggle_leaves_sink_unchanged (sink : UinputSink) :
    dispatch_gesture Gesture.TwoFingerTap [("two_finger.tap", "toggle")] sink =
      Except.ok (sink, []) := by
  rfl

/-- C8: profile validation accepts `move_tol = 0`.  The Rust test
`!(0.0..1.0).contains(&move_tol)` uses the half-open range `[0, 1)`, so a
profile with `move_tol = 0` — which the spec, the claim, and the code's
own error message (`must be in (0,1)`) all require to be rejected —
passes validation. -/
theorem move_tol_zero_accepted :
    (⟨⟨none, false⟩, ⟨250, 400, 0, 1 / 10, 500, 1, 1 / 25, 1 / 2⟩, []⟩ :
        Profile).thresholds.move_tol = 0 ∧
    validate_profile
        ⟨⟨none, false⟩, ⟨250, 400, 0, 1 / 10, 500, 1, 1 / 25, 1 / 2⟩, []⟩ =
      Except.ok () := by
  exact ⟨rfl, rfl⟩

/-- C2 counterexample: the emitted step count is the Rust `as i32`
truncation toward zero, not a floor.  With `scroll_acc = -3/200`
(accumulator 0 plus centroid delta `97/200 - 1/2`), the code computes
steps = -1 and emits `scroll_vertical(1)` leaving `acc = -1/200`, while
`floor(-3/200 / STEP_NORM) = -2` would demand emitting 2. -/
theorem scroll_floor_cex :
    scrollStep ⟨250, 400, 1 / 50, 1 / 10, 500, 1, 1 / 25, 1 / 2⟩
        (some ⟨0, 2, (1 / 2, 1 / 2), 0, []⟩) ⟨5, 2, (1 / 2, 97 / 200), 0, []⟩ 0 =
      ⟨-1 / 200, some 1⟩ ∧
    specSteps ((0 : ℚ) + (97 / 200 - 1 / 2)) = -2 ∧
    (1 : ℤ) ≠ -(-2) := by
  have hc : (⌈(-(3 / 2) : ℚ)⌉ : ℤ) = -1 := by
    rw [Int.ceil_eq_iff]
    norm_num
  refine ⟨?_, ?_, by decide⟩
  · norm_num [scrollStep, STEP_NORM, GAIN, i32cast, towardZero, abs, hc]
  · norm_num [specSteps, STEP_NORM]

/-- C3 counterexample: the scroll integrator never consults the prior
frame's `active_count`.  Here the prior frame has `active_count = 1`, yet
on a current two-finger frame the code accumulates the centroid delta and
emits a step, contradicting the claim that no accumulation or emission
occurs when the prior frame's count differs from 2. -/
theorem scroll_prev_count_cex :
    (⟨0, 1, (1 / 2, 97 / 200), 0, []⟩ : FrameSummary).active_count = 1 ∧
    scrollStep ⟨250, 400, 1 / 50, 1 / 10, 500, 1, 1 / 25, 1 / 2⟩
        (some ⟨0, 1, (1 / 2, 97 / 200), 0, []⟩) ⟨5, 2, (1 / 2, 1 / 2), 0, []⟩ 0 =
      ⟨1 / 200, some (-1)⟩ := by
  exact ⟨rfl, by norm_num [scrollStep, STEP_NORM, GAIN, i32cast, towardZero, abs]⟩

/-- C4 counterexample: leaving the armed, unclassified two-finger regime
with a failing tap can still emit a gesture.  Frames: three fingers at
t=0, two fingers at t=5 (latched frame fails `move_tol`), zero fingers at
t=10.  On the final frame the tap test fails, but control falls through
to the three-finger block, which emits `ThreeFingerTap` — the claim's
"otherwise no gesture is emitted for that transition" is false. -/
theorem tap_transition_cex :
    (GestureDetector.new ⟨250, 400, 1 / 50, 1 / 10, 500, 1, 1 / 25, 1 / 2⟩).update
        ⟨0, 3, (1 / 2, 1 / 2), 1 / 10,
          [⟨1, 1 / 2, 1 / 2, 0, 0⟩, ⟨2, 1 / 2, 1 / 2, 0, 0⟩, ⟨3, 1 / 2, 1 / 2, 0, 0⟩]⟩ =
      (⟨⟨250, 400, 1 / 50, 1 / 10, 500, 1, 1 / 25, 1 / 2⟩, TwoFingerState.dflt,
        some 0, none⟩, none) ∧
    (⟨⟨250, 400, 1 / 50, 1 / 10, 500, 1, 1 / 25, 1 / 2⟩, TwoFingerState.dflt,
        some 0, none⟩ : GestureDetector).update
        ⟨5, 2, (1 / 2, 1 / 2), 1 / 10,
          [⟨1, 9 / 20, 1 / 2, 1, 5⟩, ⟨2, 11 / 20, 1 / 2, 1, 5⟩]⟩ =
      (⟨⟨250, 400, 1 / 50, 1 / 10, 500, 1, 1 / 25, 1 / 2⟩,
        ⟨5, (1 / 2, 1 / 2), 1 / 10, true, false⟩, some 0,
        some ⟨5, 2, (1 / 2, 1 / 2), 1 / 10,
          [⟨1, 9 / 20, 1 / 2, 1, 5⟩, ⟨2, 11 / 20, 1 / 2, 1, 5⟩]⟩⟩, none) ∧
    tapOk ⟨250, 400, 1 / 50, 1 / 10, 500, 1, 1 / 25, 1 / 2⟩
        ⟨5, 2, (1 / 2, 1 / 2), 1 / 10,
          [⟨1, 9 / 20, 1 / 2, 1, 5⟩, ⟨2, 11 / 20, 1 / 2, 1, 5⟩]⟩ = false ∧
    (⟨10, 0, (1 / 2, 1 / 2), 0, []⟩ : FrameSummary).active_count ≠ 2 ∧
    ((⟨⟨250, 400, 1 / 50, 1 / 10, 500, 1, 1 / 25, 1 / 2⟩,
        ⟨5, (1 / 2, 1 / 2), 1 / 10, true, false⟩, some 0,
        some ⟨5, 2, (1 / 2, 1 / 2), 1 / 10,
          [⟨1, 9 / 20, 1 / 2, 1, 5⟩, ⟨2, 11 / 20, 1 / 2, 1, 5⟩]⟩⟩ : GestureDetector).update
        ⟨10, 0, (1 / 2, 1 / 2), 0, []⟩).2 = some Gesture.ThreeFingerTap := by
  refine ⟨rfl, ?_, ?_, by decide, ?_⟩
  · norm_num [GestureDetector.update, GestureDetector.twoPhase,
      GestureDetector.threeStep, TwoFingerState.dflt, abs]
  · norm_num [tapOk]
  · norm_num [GestureDetector.update, GestureDetector.twoPhase,
      GestureDetector.threeStep, tapOk, TwoFingerState.dflt]

/-- C2 (amended): in the accumulate branch (current frame has two active
touches, pinch gate passed), the step count is the Rust `as i32` cast of
`scroll_acc / STEP_NORM * GAIN` — truncation toward zero saturating at
the i32 bounds, which coincides with the spec floor only for non-negative
accumulators — and when `|steps| ≥ 1` the code emits
`scroll_vertical(-steps)` and decrements the accumulator by
`steps * STEP_NORM / GAIN`; otherwise the accumulator just retains the
added centroid delta. -/
theorem scroll_step_trunc (th : Thresholds) (p f : FrameSummary) (acc acc1 : ℚ)
    (steps : ℤ) (h2 : f.active_count = 2)
    (hg : |f.span - p.span| < 6 / 10 * th.pinch_step)
    (ha : acc1 = acc + (f.centroid.2 - p.centroid.2))
    (hst : steps = i32cast (acc1 / STEP_NORM * GAIN)) :
    (1 ≤ |steps| →
      scrollStep th (some p) f acc =
        ⟨acc1 - (steps : ℚ) * STEP_NORM / GAIN, some (-steps)⟩) ∧
    (steps = 0 → scrollStep th (some p) f acc = ⟨acc1, none⟩) := by
  subst ha
  subst hst
  constructor
  · intro h
    simp only [scrollStep]
    rw [if_pos h2, if_pos hg, if_pos h]
  · intro h
    simp only [scrollStep]
    rw [if_pos h2, if_pos hg, if_neg]
    rw [h]
    decide

/-- Witness for the amended C2 theorem at the concrete counterexample
input: accumulator -3/200 truncates to step -1 and emits 1. -/
theorem scroll_step_trunc_witness :
    scrollStep ⟨250, 400, 1 / 50, 1 / 10, 500, 1, 1 / 25, 1 / 2⟩
        (some ⟨0, 2, (1 / 2, 1 / 2), 0, []⟩) ⟨5, 2, (1 / 2, 97 / 200), 0, []⟩ 0 =
      ⟨(-3 / 200 : ℚ) - ((-1 : ℤ) : ℚ) * STEP_NORM / GAIN, some (-(-1))⟩ := by
  have hc : (⌈(-(3 / 2) : ℚ)⌉ : ℤ) = -1 := by
    rw [Int.ceil_eq_iff]
    norm_num
  exact (scroll_step_trunc _ _ _ 0 (-3 / 200) (-1) rfl
    (by norm_num [abs]) (by norm_num)
    (by norm_num [i32cast, towardZero, STEP_NORM, GAIN, hc])).1 (by decide)

/-- C3 (amended): the scroll integrator is gated only by the existence of
a prior frame and the current frame's `active_count == 2` (plus the pinch
gate); the prior frame's own `active_count` is never consulted.  When the
current count differs from 2 the accumulator resets to 0; with no prior
frame nothing happens; when the pinch gate trips the accumulator is
unchanged and nothing is emitted. -/
theorem scroll_gate_characterization (th : Thresholds) (p f : FrameSummary)
    (acc : ℚ) :
    scrollStep th none f acc = ⟨acc, none⟩ ∧
    (f.active_count ≠ 2 → scrollStep th (some p) f acc = ⟨0, none⟩) ∧
    (f.active_count = 2 → 6 / 10 * th.pinch_step ≤ |f.span - p.span| →
      scrollStep th (some p) f acc = ⟨acc, none⟩) ∧
    (∀ n, scrollStep th (some { p with active_count := n }) f acc =
      scrollStep th (some p) f acc) := by
  refine ⟨rfl, ?_, ?_, ?_⟩
  · intro h
    simp only [scrollStep]
    rw [if_neg h]
  · intro h2 hg
    simp only [scrollStep]
    rw [if_pos h2, if_neg (not_lt.mpr hg)]
  · intro n
    simp only [scrollStep]

/-- Witness for the amended C3 theorem: a current frame with
`active_count = 0` resets the accumulator. -/
theorem scroll_gate_characterization_witness :
    scrollStep ⟨250, 400, 1 / 50, 1 / 10, 500, 1, 1 / 25, 1 / 2⟩
        (some ⟨0, 2, (1 / 2, 1 / 2), 0, []⟩) ⟨5, 0, (1 / 2, 1 / 2), 0, []⟩ (7 / 100) =
      ⟨0, none⟩ :=
  (scroll_gate_characterization _ _ _ _).2.1 (by decide)

/-- The three-finger block emits nothing except possibly
`ThreeFingerTap`. -/
lemma threeStep_snd (d : GestureDetector) (f : FrameSummary) :
    (d.threeStep f).2 = none ∨ (d.threeStep f).2 = some Gesture.ThreeFingerTap := by
  unfold GestureDetector.threeStep
  by_cases h3 : f.active_count = 3
  · rw [if_pos h3]
    left
    rfl
  · rw [if_neg h3]
    by_cases h0 : f.active_count = 0
    · rw [if_pos h0]
      cases d.three_start_ms with
      | none => left; rfl
      | some t0 =>
        by_cases ht : f.timestamp_ms - t0 ≤ d.th.tap_ms
        · right
          simp [ht]
        · left
          simp [ht]
    · rw [if_neg h0]
      left
      rfl

/-- C4 (amended): on leaving the armed, unclassified two-finger regime,
`TwoFingerTap` is emitted iff the latched two-finger frame passes the tap
test (exactly two snapshots, each with `age_ms ≤ tap_ms` and
`moved_norm ≤ move_tol`); when the tap test fails the two-finger logic
emits nothing, but the subsequent three-finger block may still emit
`ThreeFingerTap` on the very same frame (when `active_count = 0` and a
pending three-finger start lies within `tap_ms`). -/
theorem tap_latch_characterization (d : GestureDetector) (lf frame : FrameSummary)
    (harm : d.two.armed = true) (hcl : d.two.classified = false)
    (hlf : d.last_two_frame = some lf) (h2 : frame.active_count ≠ 2) :
    ((d.update frame).2 = some Gesture.TwoFingerTap ↔ tapOk d.th lf = true) ∧
    (tapOk d.th lf = false →
      (d.update frame).2 = none ∨
      (d.update frame).2 = some Gesture.ThreeFingerTap) := by
  have htw : d.twoPhase frame =
      ({ d with two := TwoFingerState.dflt, last_two_frame := none },
       if tapOk d.th lf then some Gesture.TwoFingerTap else none) := by
    simp only [GestureDetector.twoPhase]
    rw [if_neg h2, if_pos harm, hlf]
    simp [hcl]
  by_cases htap : tapOk d.th lf = true
  · have hu : (d.update frame).2 = some Gesture.TwoFingerTap := by
      simp only [GestureDetector.update, htw, htap, if_true]
    refine ⟨⟨fun _ => htap, fun _ => hu⟩, fun h => ?_⟩
    rw [htap] at h
    cases h
  · have hfalse : tapOk d.th lf = false := by simpa using htap
    have hu : d.update frame =
        ({ d with two := TwoFingerState.dflt, last_two_frame := none } : GestureDetector).threeStep frame := by
      simp only [GestureDetector.update, htw, hfalse, Bool.false_eq_true, if_false]
    refine ⟨⟨fun h => ?_, fun h => ?_⟩, fun _ => ?_⟩
    · exfalso
      rw [hu] at h
      rcases threeStep_snd
          ({ d with two := TwoFingerState.dflt, last_two_frame := none })
          frame with h1 | h1 <;> rw [h1] at h <;> cases h
    · rw [hfalse] at h
      cases h
    · rw [hu]
      exact threeStep_snd _ _

/-- Witness for the amended C4 theorem: an armed, unclassified detector
whose latched frame passes the tap test emits `TwoFingerTap` on the
release frame. -/
theorem tap_latch_characterization_witness :
    ((⟨⟨250, 400, 1 / 50, 1 / 10, 500, 1, 1 / 25, 1 / 2⟩,
        ⟨5, (1 / 2, 1 / 2), 1 / 10, true, false⟩, none,
        some ⟨5, 2, (1 / 2, 1 / 2), 1 / 10,
          [⟨1, 9 / 20, 1 / 2, 0, 5⟩, ⟨2, 11 / 20, 1 / 2, 0, 5⟩]⟩⟩ :
        GestureDetector).update ⟨10, 0, (1 / 2, 1 / 2), 0, []⟩).2 =
        some Gesture.TwoFingerTap ↔
      tapOk ⟨250, 400, 1 / 50, 1 / 10, 500, 1, 1 / 25, 1 / 2⟩
        ⟨5, 2, (1 / 2, 1 / 2), 1 / 10,
          [⟨1, 9 / 20, 1 / 2, 0, 5⟩, ⟨2, 11 / 20, 1 / 2, 0, 5⟩]⟩ = true :=
  (tap_latch_characterization _ _ _ rfl rfl rfl (by decide)).1

/-- `want_grab_next` after the event pass is determined by the last frame
of the tick: each frame overwrites it with `active_count >= 2`. -/
lemma want_grab_fold_last :
    ∀ (l : List FrameSummary) (init : Option Bool),
      l.foldl (fun _ f => some (decide (2 ≤ f.active_count))) init =
        (l.getLast?).elim init (fun f => some (decide (2 ≤ f.active_count)))
  | [], _ => rfl
  | [a], _ => rfl
  | a :: b :: m, init => by
    have h := want_grab_fold_last (b :: m) (some (decide (2 ≤ a.active_count)))
    have hcons : (a :: b :: m).foldl
        (fun _ f => some (decide (2 ≤ f.active_count))) init =
        (b :: m).foldl (fun _ f => some (decide (2 ≤ f.active_count)))
          (some (decide (2 ≤ a.active_count))) := rfl
    rw [hcons, h, List.getLast?_cons_cons]
    rcases hlast : (b :: m).getLast? with _ | f
    · exact absurd hlast (by simp)
    · rfl

/-- C5: per tick, the grab arbiter applies at most one transition, the
transition is a pure function of the frames of the completed event pass
(the model applies it only after the pass, mirroring the deferral in the
code), and afterwards the grabbed flag equals `active_count >= 2` of the
last frame emitted during the tick — unchanged when the tick emitted no
frame. -/
theorem grab_arbiter_tick (grabbed : Bool) (frames : List FrameSummary) :
    (tickGrab grabbed frames).2 ≤ 1 ∧
    (frames = [] → tickGrab grabbed frames = (grabbed, 0)) ∧
    (∀ f, frames.getLast? = some f →
      (tickGrab grabbed frames).1 = decide (2 ≤ f.active_count)) := by
  have hw : want_grab_fold frames =
      (frames.getLast?).elim none (fun f => some (decide (2 ≤ f.active_count))) :=
    want_grab_fold_last frames none
  rcases hlast : frames.getLast? with _ | f
  · have hnil : frames = [] := by
      cases frames with
      | nil => rfl
      | cons a m => exact absurd hlast (by simp)
    subst hnil
    exact ⟨Nat.zero_le 1, fun _ => rfl, fun f hf => by cases hf⟩
  · have htick : tickGrab grabbed frames =
        applyGrab grabbed (some (decide (2 ≤ f.active_count))) := by
      rw [tickGrab, hw, hlast]
      rfl
    refine ⟨?_, ?_, ?_⟩
    · rw [htick]
      cases hb : decide (2 ≤ f.active_count) <;> cases grabbed <;>
        simp [applyGrab]
    · intro h
      subst h
      exact absurd hlast (by simp)
    · intro g hg
      have hfg : g = f := (Option.some.inj hg).symm
      subst hfg
      rw [htick]
      cases hb : decide (2 ≤ g.active_count) <;> cases grabbed <;>
        simp [applyGrab, hb]

/-- Witness for the C5 theorem: a tick whose single frame has two active
touches leaves the arbiter grabbed. -/
theorem grab_arbiter_tick_witness :
    (tickGrab false [⟨0, 2, (1 / 2, 1 / 2), 0, []⟩]).1 =
      decide (2 ≤ (⟨0, 2, (1 / 2, 1 / 2), 0, []⟩ : FrameSummary).active_count) :=
  (grab_arbiter_tick false [⟨0, 2, (1 / 2, 1 / 2), 0, []⟩]).2.2 _ rfl

/-- C7: when no slot is active (the filter `active && tracking_id >= 0`
matches nothing), the emitted frame has `active_count = 0`,
`centroid = (1/2, 1/2)`, `span = 0` and an empty snapshot list; when the
active list is non-empty, the centroid is the arithmetic mean of the
active positions and the span is the mean of the (abstracted-sqrt)
Euclidean distances from that centroid. -/
theorem syn_report_frame_correct (sqrt : ℚ → ℚ) (t : Tracker) (now : ℕ) :
    ((∀ s ∈ t.slots, ¬(s.active = true ∧ 0 ≤ s.tracking_id)) →
      (t.on_syn_report sqrt now).1.active_count = 0 ∧
      (t.on_syn_report sqrt now).1.centroid = (1 / 2, 1 / 2) ∧
      (t.on_syn_report sqrt now).1.span = 0 ∧
      (t.on_syn_report sqrt now).1.slots = []) ∧
    (t.activeSlots ≠ [] →
      (t.on_syn_report sqrt now).1.centroid =
        ((t.activeSlots.map (fun s => s.x_norm)).sum / (t.activeSlots.length : ℚ),
         (t.activeSlots.map (fun s => s.y_norm)).sum / (t.activeSlots.length : ℚ)) ∧
      (t.on_syn_report sqrt now).1.span =
        (t.activeSlots.map (fun s =>
          sqrt ((s.x_norm - (t.on_syn_report sqrt now).1.centroid.1) *
                  (s.x_norm - (t.on_syn_report sqrt now).1.centroid.1) +
                (s.y_norm - (t.on_syn_report sqrt now).1.centroid.2) *
                  (s.y_norm - (t.on_syn_report sqrt now).1.centroid.2)))).sum /
          (t.activeSlots.length : ℚ)) := by
  constructor
  · intro h
    have hact : t.activeSlots = [] := by
      rw [Tracker.activeSlots, List.filter_eq_nil_iff]
      intro s hs
      simpa using h s hs
    simp [Tracker.on_syn_report, hact]
  · intro hne
    have hpos : 0 < t.activeSlots.length := List.length_pos.mpr hne
    simp only [Tracker.on_syn_report, hpos, if_true]
    exact ⟨trivial, trivial⟩

/-- Witness for the C7 theorem at the freshly created tracker, whose
slots are all inactive. -/
theorem syn_report_frame_correct_witness :
    (Tracker.new.on_syn_report (fun _ => 0) 5).1.active_count = 0 ∧
    (Tracker.new.on_syn_report (fun _ => 0) 5).1.centroid = (1 / 2, 1 / 2) ∧
    (Tracker.new.on_syn_report (fun _ => 0) 5).1.span = 0 ∧
    (Tracker.new.on_syn_report (fun _ => 0) 5).1.slots = [] :=
  (syn_report_frame_correct (fun _ => 0) Tracker.new 5).1 (by decide)

/-- Reading back a list after `set`: at the written index the new value,
elsewhere the old one. -/
lemma slots_after_set {l : List SlotState} {i j : ℕ} {a s s1 : SlotState}
    (hs : l[j]? = some s) (hs1 : (l.set i a)[j]? = some s1) :
    (j = i ∧ s1 = a) ∨ (j ≠ i ∧ s1 = s) := by
  by_cases hj : j = i
  · subst hj
    left
    refine ⟨rfl, ?_⟩
    have hlen : j < l.length := by
      rw [List.getElem?_eq_some] at hs
      exact hs.1
    rw [List.getElem?_set_self hlen] at hs1
    exact (Option.some.inj hs1).symm
  · right
    refine ⟨hj, ?_⟩
    rw [List.getElem?_set_ne (fun h => hj h.symm)] at hs1
    rw [hs] at hs1
    exact (Option.some.inj hs1).symm

/-- Successful `on_tracking_id` rewrites exactly the current slot: release
keeps the movement state, touchdown resets it. -/
lemma on_tracking_id_eq {t : Tracker} {now : ℕ} {id : ℤ} {t1 : Tracker}
    (h : t.on_tracking_id now id = some t1) :
    ∃ s0, t.slots[i32ToUsize t.cur_slot]? = some s0 ∧
      t1.slots = t.slots.set (i32ToUsize t.cur_slot)
        (if id < 0 then { s0 with tracking_id := -1, active := false, t_last_ms := now }
         else
           { tracking_id := id, x_norm := s0.x_norm, y_norm := s0.y_norm
             t_first_ms := now, t_last_ms := now, moved_norm := 0
             last_x_norm := s0.x_norm, last_y_norm := s0.y_norm
             seen_x := false, seen_y := false, active := true }) := by
  rcases hidx : t.slots[i32ToUsize t.cur_slot]? with _ | s0
  · simp only [Tracker.on_tracking_id, hidx] at h
    exact Option.noConfusion h
  · simp only [Tracker.on_tracking_id, hidx] at h
    have ht1 := (Option.some.inj h).symm
    subst ht1
    exact ⟨s0, rfl, rfl⟩

/-- Successful `on_pos_x` rewrites exactly the current slot and never
decreases its accumulated movement. -/
lemma on_pos_x_shape {t : Tracker} {now : ℕ} {raw : ℤ} {t1 : Tracker}
    (h : t.on_pos_x now raw = some t1) :
    ∃ s0 a, t.slots[i32ToUsize t.cur_slot]? = some s0 ∧
      t1.slots = t.slots.set (i32ToUsize t.cur_slot) a ∧
      s0.moved_norm ≤ a.moved_norm := by
  rcases hidx : t.slots[i32ToUsize t.cur_slot]? with _ | s0
  · simp only [Tracker.on_pos_x, hidx] at h
    exact Option.noConfusion h
  · simp only [Tracker.on_pos_x, hidx] at h
    have ht1 := (Option.some.inj h).symm
    subst ht1
    refine ⟨s0, _, rfl, rfl, ?_⟩
    by_cases hseen : (s0.seen_x && s0.seen_y) = true
    · rw [if_pos hseen]
      exact le_add_of_nonneg_right (abs_nonneg _)
    · rw [if_neg hseen]

/-- Successful `on_pos_y` rewrites exactly the current slot and never
decreases its accumulated movement. -/
lemma on_pos_y_shape {t : Tracker} {now : ℕ} {raw : ℤ} {t1 : Tracker}
    (h : t.on_pos_y now raw = some t1) :
    ∃ s0 a, t.slots[i32ToUsize t.cur_slot]? = some s0 ∧
      t1.slots = t.slots.set (i32ToUsize t.cur_slot) a ∧
      s0.moved_norm ≤ a.moved_norm := by
  rcases hidx : t.slots[i32ToUsize t.cur_slot]? with _ | s0
  · simp only [Tracker.on_pos_y, hidx] at h
    exact Option.noConfusion h
  · simp only [Tracker.on_pos_y, hidx] at h
    have ht1 := (Option.some.inj h).symm
    subst ht1
    refine ⟨s0, _, rfl, rfl, ?_⟩
    by_cases hseen : (s0.seen_x && s0.seen_y) = true
    · rw [if_pos hseen]
      exact le_add_of_nonneg_right (abs_nonneg _)
    · rw [if_neg hseen]

/-- C6: across any single tracker step, a touchdown
(`on_tracking_id` with `id ≥ 0` addressed to a slot) resets that slot's
`moved_norm` to 0, clears both `seen_x`/`seen_y` baselines and sets
`t_first_ms = t_last_ms` to the event time; every other step leaves each
slot's `moved_norm` non-decreasing (in particular it is non-decreasing
while the slot is active). -/
theorem tracker_moved_step (sqrt : ℚ → ℚ) (t t1 : Tracker) (e : Ev)
    (hstep : t.step sqrt e = some t1) (j : ℕ) (s s1 : SlotState)
    (hs : t.slots[j]? = some s) (hs1 : t1.slots[j]? = some s1) :
    ((∃ now id, e = Ev.tid now id ∧ 0 ≤ id ∧ j = i32ToUsize t.cur_slot) →
      s1.moved_norm = 0 ∧ s1.seen_x = false ∧ s1.seen_y = false ∧
      ∀ now id, e = Ev.tid now id → s1.t_first_ms = now ∧ s1.t_last_ms = now) ∧
    ((¬∃ now id, e = Ev.tid now id ∧ 0 ≤ id ∧ j = i32ToUsize t.cur_slot) →
      s.moved_norm ≤ s1.moved_norm) := by
  cases e with
  | slot i =>
    have hsl : t1.slots = t.slots := by
      rw [← Option.some.inj hstep]
      rfl
    rw [hsl, hs] at hs1
    rw [← Option.some.inj hs1]
    exact ⟨fun ⟨now, id, heq, _, _⟩ => Ev.noConfusion heq, fun _ => le_refl _⟩
  | norm a b c d =>
    have hsl : t1.slots = t.slots := by
      rw [← Option.some.inj hstep]
      rfl
    rw [hsl, hs] at hs1
    rw [← Option.some.inj hs1]
    exact ⟨fun ⟨now, id, heq, _, _⟩ => Ev.noConfusion heq, fun _ => le_refl _⟩
  | syn now =>
    have hsl : t1.slots = t.slots := by
      rw [← Option.some.inj hstep]
      rfl
    rw [hsl, hs] at hs1
    rw [← Option.some.inj hs1]
    exact ⟨fun ⟨now', id, heq, _, _⟩ => Ev.noConfusion heq, fun _ => le_refl _⟩
  | tid now id =>
    obtain ⟨s0, hidx, hset⟩ := on_tracking_id_eq hstep
    rw [hset] at hs1
    rcases slots_after_set hs hs1 with ⟨hj, hA⟩ | ⟨hj, hss⟩
    · have hs0 : s = s0 := by
        rw [hj] at hs
        rw [hs] at hidx
        exact Option.some.inj hidx
      constructor
      · rintro ⟨now', id', heq, hle, -⟩
        cases heq
        rw [if_neg (not_lt.mpr hle)] at hA
        subst hA
        exact ⟨rfl, rfl, rfl, fun now'' id'' heq' => by cases heq'; exact ⟨rfl, rfl⟩⟩
      · intro hn
        have hid : id < 0 := by
          by_contra hpos
          exact hn ⟨now, id, rfl, not_lt.mp hpos, hj⟩
        rw [if_pos hid] at hA
        rw [hA, hs0]
    · rw [hss]
      exact ⟨fun ⟨now', id', heq, hle, hjj⟩ => absurd hjj hj, fun _ => le_refl _⟩
  | posX now raw =>
    obtain ⟨s0, a, hidx, hset, hmv⟩ := on_pos_x_shape hstep
    rw [hset] at hs1
    rcases slots_after_set hs hs1 with ⟨hj, hA⟩ | ⟨hj, hss⟩
    · have hs0 : s = s0 := by
        rw [hj] at hs
        rw [hs] at hidx
        exact Option.some.inj hidx
      refine ⟨fun ⟨now', id', heq, _, _⟩ => Ev.noConfusion heq, fun _ => ?_⟩
      rw [hA, hs0]
      exact hmv
    · rw [hss]
      exact ⟨fun ⟨now', id', heq, _, _⟩ => Ev.noConfusion heq, fun _ => le_refl _⟩
  | posY now raw =>
    obtain ⟨s0, a, hidx, hset, hmv⟩ := on_pos_y_shape hstep
    rw [hset] at hs1
    rcases slots_after_set hs hs1 with ⟨hj, hA⟩ | ⟨hj, hss⟩
    · have hs0 : s = s0 := by
        rw [hj] at hs
        rw [hs] at hidx
        exact Option.some.inj hidx
      refine ⟨fun ⟨now', id', heq, _, _⟩ => Ev.noConfusion heq, fun _ => ?_⟩
      rw [hA, hs0]
      exact hmv
    · rw [hss]
      exact ⟨fun ⟨now', id', heq, _, _⟩ => Ev.noConfusion heq, fun _ => le_refl _⟩

/-- Witness for the C6 theorem: a touchdown with id 5 at time 3 on the
fresh tracker resets slot 0 as claimed. -/
theorem tracker_moved_step_witness :
    ∃ t1 s1, Tracker.new.step (fun _ => 0) (Ev.tid 3 5) = some t1 ∧
      t1.slots[0]? = some s1 ∧ s1.moved_norm = 0 ∧ s1.seen_x = false ∧
      s1.seen_y = false ∧ s1.t_first_ms = 3 ∧ s1.t_last_ms = 3 := by
  have hstep : Tracker.new.step (fun _ => 0) (Ev.tid 3 5) =
      some { Tracker.new with slots := (Tracker.new.slots.set 0
        (⟨5, 0, 0, 3, 3, 0, 0, 0, false, false, true⟩ : SlotState)) } := by decide
  have hs : Tracker.new.slots[0]? = some SlotState.dflt := by decide
  have hs1 : ({ Tracker.new with slots := (Tracker.new.slots.set 0
      (⟨5, 0, 0, 3, 3, 0, 0, 0, false, false, true⟩ : SlotState)) } : Tracker).slots[0]? =
      some ⟨5, 0, 0, 3, 3, 0, 0, 0, false, false, true⟩ := by decide
  have hmain := (tracker_moved_step (fun _ => 0) Tracker.new _ (Ev.tid 3 5)
    hstep 0 SlotState.dflt ⟨5, 0, 0, 3, 3, 0, 0, 0, false, false, true⟩ hs hs1).1
    ⟨3, 5, rfl, by decide, by decide⟩
  exact ⟨_, _, hstep, hs1, hmain.1, hmain.2.1, hmain.2.2.1,
    (hmain.2.2.2 3 5 rfl).1, (hmain.2.2.2 3 5 rfl).2⟩

/-- The tracker safety invariant: ten slots, `cur_slot` within `[0, 10)`,
normalization divisors at least 1, and every stored normalized
coordinate in `[0, 1]`. -/
def Tracker.Inv (t : Tracker) : Prop :=
  t.slots.length = 10 ∧ 0 ≤ t.cur_slot ∧ t.cur_slot < 10 ∧
  1 ≤ t.x_max - t.x_min ∧ 1 ≤ t.y_max - t.y_min ∧
  ∀ s ∈ t.slots, 0 ≤ s.x_norm ∧ s.x_norm ≤ 1 ∧ 0 ≤ s.y_norm ∧ s.y_norm ≤ 1

/-- Under the `cur_slot` bounds the `as usize` cast is the plain value. -/
lemma i32ToUsize_of_bounds {i : ℤ} (h0 : 0 ≤ i) (h10 : i < 10) :
    i32ToUsize i = i.toNat ∧ i.toNat < 10 := by
  unfold i32ToUsize
  have hmod : i % (2 : ℤ) ^ 64 = i := Int.emod_eq_of_lt h0 (by norm_num; omega)
  rw [hmod]
  omega

/-- `Tracker::new` satisfies the invariant. -/
lemma new_inv : Tracker.new.Inv := by
  refine ⟨rfl, le_refl 0, by norm_num [Tracker.new], by norm_num [Tracker.new],
    by norm_num [Tracker.new], ?_⟩
  intro s hs
  rw [List.eq_of_mem_replicate hs]
  refine ⟨le_refl 0, by norm_num [SlotState.dflt], le_refl 0,
    by norm_num [SlotState.dflt]⟩

/-- Clamping to `[0, 1]` lands in `[0, 1]`. -/
lemma qclamp_unit (x : ℚ) : 0 ≤ qclamp x 0 1 ∧ qclamp x 0 1 ≤ 1 := by
  unfold qclamp
  exact ⟨le_max_left 0 _, max_le (by norm_num) (min_le_right x 1)⟩

/-- Every tracker step succeeds from an invariant state (no slot access
panics) and preserves the invariant. -/
lemma step_inv {t : Tracker} (hInv : t.Inv) (sqrt : ℚ → ℚ) (e : Ev) :
    ∃ t1, t.step sqrt e = some t1 ∧ t1.Inv := by
  obtain ⟨hlen, h0, h10, hx, hy, hnorm⟩ := hInv
  have hidxb := i32ToUsize_of_bounds h0 h10
  have hlt : i32ToUsize t.cur_slot < t.slots.length := by
    rw [hidxb.1, hlen]
    exact hidxb.2
  cases e with
  | slot i =>
    refine ⟨t.on_slot i, rfl, hlen, ?_, ?_, hx, hy, hnorm⟩
    · exact le_max_left 0 _
    · show max 0 (min i ((t.slots.length : ℤ) - 1)) < 10
      rw [hlen]
      refine max_lt (by norm_num) (lt_of_le_of_lt (min_le_right i _) ?_)
      norm_num
  | norm a b c d =>
    refine ⟨t.set_norm_ranges a b c d, rfl, hlen, h0, h10, ?_, ?_, hnorm⟩
    · show 1 ≤ max b (a + 1) - a
      have := le_max_right b (a + 1)
      omega
    · show 1 ≤ max d (c + 1) - c
      have := le_max_right d (c + 1)
      omega
  | syn now =>
    exact ⟨(t.on_syn_report sqrt now).2, rfl, hlen, h0, h10, hx, hy, hnorm⟩
  | tid now id =>
    obtain ⟨s0, hget⟩ : ∃ s0, t.slots[i32ToUsize t.cur_slot]? = some s0 :=
      ⟨_, List.getElem?_eq_getElem hlt⟩
    have hs0 := hnorm s0 (List.getElem?_mem hget)
    refine ⟨{ t with slots := (t.slots.set (i32ToUsize t.cur_slot)
        (if id < 0 then { s0 with tracking_id := -1, active := false, t_last_ms := now }
         else
           { tracking_id := id, x_norm := s0.x_norm, y_norm := s0.y_norm
             t_first_ms := now, t_last_ms := now, moved_norm := 0
             last_x_norm := s0.x_norm, last_y_norm := s0.y_norm
             seen_x := false, seen_y := false, active := true })) }, ?_, ?_⟩
    · simp only [Tracker.step, Tracker.on_tracking_id, hget]
    · refine ⟨?_, h0, h10, hx, hy, ?_⟩
      · show (t.slots.set _ _).length = 10
        rw [List.length_set]
        exact hlen
      · intro s hsmem
        rcases List.mem_or_eq_of_mem_set hsmem with hmem | heq
        · exact hnorm s hmem
        · subst heq
          by_cases hneg : id < 0
          · rw [if_pos hneg]
            exact hs0
          · rw [if_neg hneg]
            exact hs0
  | posX now raw =>
    obtain ⟨s0, hget⟩ : ∃ s0, t.slots[i32ToUsize t.cur_slot]? = some s0 :=
      ⟨_, List.getElem?_eq_getElem hlt⟩
    have hs0 := hnorm s0 (List.getElem?_mem hget)
    have hnx := qclamp_unit (((raw - t.x_min : ℤ) : ℚ) / ((t.x_max - t.x_min : ℤ) : ℚ))
    refine ⟨{ t with slots := (t.slots.set (i32ToUsize t.cur_slot)
        (if s0.seen_x && s0.seen_y then
           { s0 with
             moved_norm := (s0.moved_norm +
               |qclamp (((raw - t.x_min : ℤ) : ℚ) / ((t.x_max - t.x_min : ℤ) : ℚ)) 0 1 - s0.last_x_norm|),
             x_norm := qclamp (((raw - t.x_min : ℤ) : ℚ) / ((t.x_max - t.x_min : ℤ) : ℚ)) 0 1,
             t_last_ms := now }
         else
           { s0 with
             last_x_norm := qclamp (((raw - t.x_min : ℤ) : ℚ) / ((t.x_max - t.x_min : ℤ) : ℚ)) 0 1,
             seen_x := true,
             x_norm := qclamp (((raw - t.x_min : ℤ) : ℚ) / ((t.x_max - t.x_min : ℤ) : ℚ)) 0 1,
             t_last_ms := now })) }, ?_, ?_⟩
    · simp only [Tracker.step, Tracker.on_pos_x, hget]
    · refine ⟨?_, h0, h10, hx, hy, ?_⟩
      · show (t.slots.set _ _).length = 10
        rw [List.length_set]
        exact hlen
      · intro s hsmem
        rcases List.mem_or_eq_of_mem_set hsmem with hmem | heq
        · exact hnorm s hmem
        · subst heq
          by_cases hseen : (s0.seen_x && s0.seen_y) = true
          · rw [if_pos hseen]
            exact ⟨hnx.1, hnx.2, hs0.2.2.1, hs0.2.2.2⟩
          · rw [if_neg hseen]
            exact ⟨hnx.1, hnx.2, hs0.2.2.1, hs0.2.2.2⟩
  | posY now raw =>
    obtain ⟨s0, hget⟩ : ∃ s0, t.slots[i32ToUsize t.cur_slot]? = some s0 :=
      ⟨_, List.getElem?_eq_getElem hlt⟩
    have hs0 := hnorm s0 (List.getElem?_mem hget)
    have hny := qclamp_unit (((raw - t.y_min : ℤ) : ℚ) / ((t.y_max - t.y_min : ℤ) : ℚ))
    refine ⟨{ t with slots := (t.slots.set (i32ToUsize t.cur_slot)
        (if s0.seen_x && s0.seen_y then
           { s0 with
             moved_norm := (s0.moved_norm +
               |qclamp (((raw - t.y_min : ℤ) : ℚ) / ((t.y_max - t.y_min : ℤ) : ℚ)) 0 1 - s0.last_y_norm|),
             y_norm := qclamp (((raw - t.y_min : ℤ) : ℚ) / ((t.y_max - t.y_min : ℤ) : ℚ)) 0 1,
             t_last_ms := now }
         else
           { s0 with
             last_y_norm := qclamp (((raw - t.y_min : ℤ) : ℚ) / ((t.y_max - t.y_min : ℤ) : ℚ)) 0 1,
             seen_y := true,
             y_norm := qclamp (((raw - t.y_min : ℤ) : ℚ) / ((t.y_max - t.y_min : ℤ) : ℚ)) 0 1,
             t_last_ms := now })) }, ?_, ?_⟩
    · simp only [Tracker.step, Tracker.on_pos_y, hget]
    · refine ⟨?_, h0, h10, hx, hy, ?_⟩
      · show (t.slots.set _ _).length = 10
        rw [List.length_set]
        exact hlen
      · intro s hsmem
        rcases List.mem_or_eq_of_mem_set hsmem with hmem | heq
        · exact hnorm s hmem
        · subst heq
          by_cases hseen : (s0.seen_x && s0.seen_y) = true
          · rw [if_pos hseen]
            exact ⟨hs0.1, hs0.2.1, hny.1, hny.2⟩
          · rw [if_neg hseen]
            exact ⟨hs0.1, hs0.2.1, hny.1, hny.2⟩

/-- Running any event sequence from an invariant state succeeds and
preserves the invariant. -/
lemma run_inv (sqrt : ℚ → ℚ) :
    ∀ (evs : List Ev) (t : Tracker), t.Inv →
      ∃ t1, t.run sqrt evs = some t1 ∧ t1.Inv
  | [], t, h => ⟨t, rfl, h⟩
  | e :: es, t, h => by
    obtain ⟨t1, hstep, h1⟩ := step_inv h sqrt e
    obtain ⟨t2, hrun, h2⟩ := run_inv sqrt es t1 h1
    refine ⟨t2, ?_, h2⟩
    simp only [Tracker.run, hstep]
    exact hrun

/-- C9: from `Tracker::new`, every sequence of tracker events — including
`on_slot` with arbitrary negative or oversized indices — keeps `cur_slot`
within `[0, 9]`, and every slot-array access made by `on_tracking_id`,
`on_pos_x` and `on_pos_y` is in bounds, so no step panics (the run never
returns `none`). -/
theorem tracker_run_no_panic (sqrt : ℚ → ℚ) (evs : List Ev) :
    ∃ t1, Tracker.new.run sqrt evs = some t1 ∧
      0 ≤ t1.cur_slot ∧ t1.cur_slot ≤ 9 := by
  obtain ⟨t1, hrun, hInv⟩ := run_inv sqrt evs Tracker.new new_inv
  have h10 := hInv.2.2.1
  exact ⟨t1, hrun, hInv.2.1, by omega⟩

/-- C10: from `Tracker::new`, after every event sequence (including
arbitrary `set_norm_ranges` calls) the normalization divisors
`x_max - x_min` and `y_max - y_min` are at least 1 — so the division in
`on_pos_x`/`on_pos_y` is never by zero — and every stored `x_norm`,
`y_norm` lies in `[0, 1]`. -/
theorem tracker_norm_divisor_safe (sqrt : ℚ → ℚ) (evs : List Ev) :
    ∃ t1, Tracker.new.run sqrt evs = some t1 ∧
      1 ≤ t1.x_max - t1.x_min ∧ 1 ≤ t1.y_max - t1.y_min ∧
      ∀ s ∈ t1.slots, 0 ≤ s.x_norm ∧ s.x_norm ≤ 1 ∧
        0 ≤ s.y_norm ∧ s.y_norm ≤ 1 := by
  obtain ⟨t1, hrun, hInv⟩ := run_inv sqrt evs Tracker.new new_inv
  exact ⟨t1, hrun, hInv.2.2.2.1, hInv.2.2.2.2.1, hInv.2.2.2.2.2⟩

end Touchctl
